/-
Verification development for the x86_vcpu VMX hypervisor core
(src/vmx/vcpu.rs and src/vmx/percpu.rs).

Machine integers are modelled as Nat with explicit masking; u64 bitwise
complement is modelled as xor with 2^64 - 1, u32 complement as xor with
2^32 - 1.  Functions of the source are translated line by line; external
collaborators (vLAPIC, host CPUID, the VMCS word store) are oracles or
explicit record fields.
-/
import Mathlib

namespace X86Vcpu

/-- Error kinds of axerrno used by this crate (Unsupported, ResourceBusy,
BadState, InvalidInput). -/
inductive AxError
  | Unsupported
  | ResourceBusy
  | BadState
  | InvalidInput
deriving DecidableEq, Repr

/-- Bitwise complement of a u64 value (Rust `!x` at width 64). -/
def compl64 (x : Nat) : Nat := 0xffffffffffffffff ^^^ x

/-- Bitwise complement of a u32 value (Rust `!x` at width 32). -/
def compl32 (x : Nat) : Nat := 0xffffffff ^^^ x

/-- Guest general-purpose register file (struct GeneralRegisters of regs.rs;
the file is not under src/, modelled from the spec: 16 general-purpose
integer registers RAX..R15). -/
structure GeneralRegisters where
  rax : Nat := 0
  rcx : Nat := 0
  rdx : Nat := 0
  rbx : Nat := 0
  rsp : Nat := 0
  rbp : Nat := 0
  rsi : Nat := 0
  rdi : Nat := 0
  r8 : Nat := 0
  r9 : Nat := 0
  r10 : Nat := 0
  r11 : Nat := 0
  r12 : Nat := 0
  r13 : Nat := 0
  r14 : Nat := 0
  r15 : Nat := 0
deriving DecidableEq, Repr

/-- VmxVcpu::read_edx_eax (vcpu.rs:995): read a 64-bit value from EDX:EAX. -/
def read_edx_eax (regs : GeneralRegisters) : Nat :=
  ((regs.rdx &&& 0xffffffff) <<< 32) ||| (regs.rax &&& 0xffffffff)

/-- VmxVcpu::write_edx_eax (vcpu.rs:1000): write a 64-bit value to EDX:EAX. -/
def write_edx_eax (regs : GeneralRegisters) (val : Nat) : GeneralRegisters :=
  { regs with rax := val &&& 0xffffffff, rdx := val >>> 32 }

/-- Masking with 0xffffffff is reduction modulo 2^32. -/
theorem land_mask32 (n : Nat) : n &&& 0xffffffff = n % 2 ^ 32 := by
  apply Nat.eq_of_testBit_eq
  intro i
  have h : (0xffffffff : Nat) = 2 ^ 32 - 1 := by norm_num
  rw [h, Nat.testBit_land, Nat.testBit_two_pow_sub_one, Nat.testBit_mod_two_pow, Bool.and_comm]

/-- Claim C10: for every 64-bit value v, write_edx_eax stores the low 32
bits of v into RAX and the high 32 bits into RDX (upper halves of both
registers cleared), and read_edx_eax then reconstructs exactly v,
regardless of the register file's prior contents. -/
theorem edx_eax_roundtrip (regs : GeneralRegisters) (v : Nat) (hv : v < 2 ^ 64) :
    read_edx_eax (write_edx_eax regs v) = v ∧
    (write_edx_eax regs v).rax = v % 2 ^ 32 ∧
    (write_edx_eax regs v).rdx = v >>> 32 ∧
    (write_edx_eax regs v).rax < 2 ^ 32 ∧
    (write_edx_eax regs v).rdx < 2 ^ 32 := by
  have hrax : (write_edx_eax regs v).rax = v % 2 ^ 32 := by
    simp [write_edx_eax, land_mask32]
  have hrdx : (write_edx_eax regs v).rdx = v >>> 32 := rfl
  have hraxlt : v % 2 ^ 32 < 2 ^ 32 := Nat.mod_lt _ (by norm_num)
  have hrdxlt : v >>> 32 < 2 ^ 32 := by
    rw [Nat.shiftRight_eq_div_pow]
    apply Nat.div_lt_of_lt_mul
    calc v < 2 ^ 64 := hv
    _ = 2 ^ 32 * 2 ^ 32 := by norm_num
  refine ⟨?_, hrax, hrdx, hrax ▸ hraxlt, hrdx ▸ hrdxlt⟩
  apply Nat.eq_of_testBit_eq
  intro i
  show (((write_edx_eax regs v).rdx &&& 0xffffffff) <<< 32
      ||| ((write_edx_eax regs v).rax &&& 0xffffffff)).testBit i = v.testBit i
  rw [hrdx, hrax, land_mask32, land_mask32, Nat.mod_eq_of_lt hrdxlt,
    Nat.mod_mod_of_dvd _ (dvd_refl _), Nat.testBit_lor, Nat.testBit_shiftLeft,
    Nat.testBit_mod_two_pow, Nat.testBit_shiftRight]
  by_cases h : i < 32
  · have h2 : ¬ (i ≥ 32) := by omega
    simp [h, h2]
  · have hge : i ≥ 32 := by omega
    have h32 : 32 + (i - 32) = i := by omega
    simp [hge, h, h32]

/-- Witness for claim C10 at v = 0x123456789abcdef0. -/
theorem edx_eax_roundtrip_witness :
    read_edx_eax (write_edx_eax {} 0x123456789abcdef0) = 0x123456789abcdef0 :=
  (edx_eax_roundtrip {} 0x123456789abcdef0 (by norm_num)).1

/- ------------------------------------------------------------------
XSETBV handler (VmxVcpu::handle_xsetbv, vcpu.rs:1196-1241).
------------------------------------------------------------------ -/

/-- Xcr0 flag bits as defined by the x86 crate (controlregs::Xcr0):
x87/MMX bit 0, SSE bit 1, AVX bit 2, BNDREG bit 3, BNDCSR bit 4,
OPMASK bit 5, ZMM_HI256 bit 6, HI16_ZMM bit 7, PKRU bit 9. -/
def XCR0_FPU_MMX_STATE : Nat := 1
def XCR0_SSE_STATE : Nat := 2
def XCR0_AVX_STATE : Nat := 4
def XCR0_BNDREG_STATE : Nat := 8
def XCR0_BNDCSR_STATE : Nat := 16
def XCR0_OPMASK_STATE : Nat := 32
def XCR0_ZMM_HI256_STATE : Nat := 64
def XCR0_HI16_ZMM_STATE : Nat := 128
def XCR0_PKRU_STATE : Nat := 512

/-- Union of all Xcr0 flag bits known to the x86 crate; Xcr0::from_bits
rejects any value with a bit outside this mask. -/
def XCR0_ALL : Nat := 0x2ff

/-- Xcr0::from_bits of the x86 crate: the value itself when it only uses
defined flag bits, none otherwise. -/
def xcr0_from_bits (value : Nat) : Option Nat :=
  if value &&& compl64 XCR0_ALL = 0 then some value else none

/-- Bitflags contains for a flag set b: all bits of b are present in x. -/
def xcr0_has (x b : Nat) : Prop := x &&& b = b

instance (x b : Nat) : Decidable (xcr0_has x b) := by
  unfold xcr0_has; infer_instance

/-- The validation closure inside VmxVcpu::handle_xsetbv
(vcpu.rs:1206-1231), translated branch by branch.  Returns true exactly
when the closure returns Some. -/
def xsetbv_validate (x : Nat) : Bool :=
  if ¬ xcr0_has x XCR0_FPU_MMX_STATE then false
  else if xcr0_has x XCR0_AVX_STATE ∧ ¬ xcr0_has x XCR0_SSE_STATE then false
  else if (xcr0_has x XCR0_BNDCSR_STATE) ≠ (xcr0_has x XCR0_BNDREG_STATE) then false
  else if xcr0_has x XCR0_OPMASK_STATE
       ∨ xcr0_has x XCR0_ZMM_HI256_STATE
       ∨ xcr0_has x XCR0_HI16_ZMM_STATE
       ∨ ¬ xcr0_has x XCR0_AVX_STATE
       ∨ ¬ xcr0_has x XCR0_OPMASK_STATE
       ∨ ¬ xcr0_has x XCR0_ZMM_HI256_STATE
       ∨ ¬ xcr0_has x XCR0_HI16_ZMM_STATE then false
  else true

/-- VmxVcpu::handle_xsetbv (vcpu.rs:1196).  Inputs are the guest RCX, RDX,
RAX and the guest RIP; on success it returns the new (guest_xcr0, rip).
On every error path the source neither stores into guest_xcr0 nor
advances RIP. -/
def handle_xsetbv (rcx rdx rax rip : Nat) : Except AxError (Nat × Nat) :=
  let index := rcx &&& 0xffffffff
  let value := ((rdx &&& 0xffffffff) <<< 32) ||| (rax &&& 0xffffffff)
  if index = 0 then
    match xcr0_from_bits value with
    | some x =>
      if xsetbv_validate x then Except.ok (x, rip + 3)
      else Except.error AxError.InvalidInput
    | none => Except.error AxError.InvalidInput
  else
    Except.error AxError.Unsupported

/-- The AVX-512 condition of the validation closure (vcpu.rs:1219-1226)
contains both xcr0_has x OPMASK and its negation as disjuncts, so it is a
tautology: the closure rejects every value. -/
theorem xsetbv_validate_always_false (x : Nat) : xsetbv_validate x = false := by
  unfold xsetbv_validate
  split_ifs with h1 h2 h3 h4
  all_goals first | rfl | tauto

/-- Claim C2, counterevidence: the spec accepts the request
EDX:EAX = 0x3 (x87/MMX and SSE set, nothing else) with ECX = 0, storing
0x3 into guest_xcr0 and advancing RIP by 3; the code instead rejects it
with InvalidInput, because the AVX-512 check of handle_xsetbv is a
tautology and rejects every value (no XSETBV request ever succeeds). -/
theorem handle_xsetbv_rejects_valid_xcr0 :
    handle_xsetbv 0 0 3 0x1000 = Except.error AxError.InvalidInput ∧
    (∀ x, xsetbv_validate x = false) := by
  exact ⟨by rfl, xsetbv_validate_always_false⟩

/- ------------------------------------------------------------------
Per-CPU VMX enablement (VmxPerCpuState::hardware_enable, percpu.rs:43-118).
------------------------------------------------------------------ -/

/-- IA32_FEATURE_CONTROL as the code reads it.  The FeatureControl
bitflags type lives in structs.rs, which is not under src/; modelled from
the spec: the flags LOCKED and VMXON_ENABLED_OUTSIDE_SMX of the MSR,
with the remaining bits carried opaquely. -/
structure FeatureControl where
  locked : Bool
  vmxonOutsideSmx : Bool
  otherBits : Nat := 0
deriving DecidableEq, Repr

/-- The fields of the IA32_VMX_BASIC MSR that hardware_enable inspects.
VmxBasic lives in structs.rs, which is not under src/; modelled from the
spec: region size, memory type (write-back = 6), 32-bit-address flag,
I/O-exit-info flag, flexible-controls flag, revision id. -/
structure VmxBasic where
  revision_id : Nat := 0
  region_size : Nat := 4096
  is_32bit_address : Bool := false
  mem_type : Nat := 6
  io_exit_info : Bool := true
  vmx_flex_controls : Bool := true
deriving DecidableEq, Repr

/-- Host-side inputs read by hardware_enable: CPUID VMX support, the
current CR4.VMXE bit (is_enabled), the feature-control MSR, the host CR0
and CR4 with their four VMX fixed MSRs, the VMX basic MSR and whether the
VMXON instruction itself succeeds. -/
structure VmxHost where
  has_hardware_support : Bool
  cr4_vmxe : Bool
  feature_control : FeatureControl
  cr0 : Nat
  cr0_fixed0 : Nat
  cr0_fixed1 : Nat
  cr4 : Nat
  cr4_fixed0 : Nat
  cr4_fixed1 : Nat
  vmx_basic : VmxBasic
  vmxon_ok : Bool
deriving DecidableEq, Repr

/-- Side effects hardware_enable performs, in program order. -/
inductive EnableEffect
  | enableXsave
  | writeFeatureControl (fc : FeatureControl)
  | allocVmxRegion (revision : Nat)
  | setCr4Vmxe
  | vmxon
deriving DecidableEq, Repr

/-- The control-register check the source performs (percpu.rs:72 and 79):
the two OR-expressions are compared against zero (not against all-ones). -/
def cr_check_passes (value fixed0 fixed1 : Nat) : Bool :=
  decide ((compl64 fixed0 ||| value) ≠ 0 ∧ (fixed1 ||| compl64 value) ≠ 0)

/-- VMX-legality of a control-register value as the spec words it:
every FIXED0-required bit is set and every bit cleared in FIXED1 is
clear.  This is the specification-side definition, written for
comparison with cr_check_passes. -/
def vmx_legal (value fixed0 fixed1 : Nat) : Prop :=
  fixed0 &&& compl64 value = 0 ∧ value &&& compl64 fixed1 = 0

instance (value fixed0 fixed1 : Nat) : Decidable (vmx_legal value fixed0 fixed1) := by
  unfold vmx_legal; infer_instance

/-- Effects of the feature-control step (percpu.rs:55-61): the xsave
enable call, then, when the MSR is not locked, the write-back with LOCKED
and VMXON_ENABLED_OUTSIDE_SMX added. -/
def feature_control_effects (fc : FeatureControl) : List EnableEffect :=
  if ¬ fc.locked then
    [EnableEffect.enableXsave,
     EnableEffect.writeFeatureControl { fc with locked := true, vmxonOutsideSmx := true }]
  else [EnableEffect.enableXsave]

/-- The part of hardware_enable after the feature-control step
(percpu.rs:66-117): the CR0/CR4 checks, the five IA32_VMX_BASIC checks,
then VMXON region allocation, CR4.VMXE and VMXON. -/
def hardware_enable_tail (s : VmxHost) (fcEffs : List EnableEffect) :
    Except AxError Unit × List EnableEffect :=
  if ¬ cr_check_passes s.cr0 s.cr0_fixed0 s.cr0_fixed1 then
    (Except.error AxError.BadState, fcEffs)
  else if ¬ cr_check_passes s.cr4 s.cr4_fixed0 s.cr4_fixed1 then
    (Except.error AxError.BadState, fcEffs)
  else if s.vmx_basic.region_size ≠ 4096 then (Except.error AxError.Unsupported, fcEffs)
  else if s.vmx_basic.mem_type ≠ 6 then (Except.error AxError.Unsupported, fcEffs)
  else if s.vmx_basic.is_32bit_address then (Except.error AxError.Unsupported, fcEffs)
  else if ¬ s.vmx_basic.io_exit_info then (Except.error AxError.Unsupported, fcEffs)
  else if ¬ s.vmx_basic.vmx_flex_controls then (Except.error AxError.Unsupported, fcEffs)
  else
    let effs := fcEffs ++
      [EnableEffect.allocVmxRegion s.vmx_basic.revision_id,
       EnableEffect.setCr4Vmxe, EnableEffect.vmxon]
    if s.vmxon_ok then (Except.ok (), effs)
    else (Except.error AxError.BadState, effs)

/-- VmxPerCpuState::hardware_enable (percpu.rs:43-118), step by step:
CPUID support check, already-enabled check, enable_xsave, the
feature-control read/lock handling, then hardware_enable_tail.
Returns the result and the list of side effects performed. -/
def hardware_enable (s : VmxHost) : Except AxError Unit × List EnableEffect :=
  if ¬ s.has_hardware_support then (Except.error AxError.Unsupported, [])
  else if s.cr4_vmxe then (Except.error AxError.ResourceBusy, [])
  else if s.feature_control.locked ∧ ¬ s.feature_control.vmxonOutsideSmx then
    (Except.error AxError.Unsupported, feature_control_effects s.feature_control)
  else hardware_enable_tail s (feature_control_effects s.feature_control)

/-- The effect list of the tail is either exactly the effects already
performed (every check-failure path) or those effects followed by region
allocation, CR4.VMXE and VMXON. -/
theorem hardware_enable_tail_effects (s : VmxHost) (fcEffs : List EnableEffect) :
    (hardware_enable_tail s fcEffs).2 = fcEffs ∨
    (hardware_enable_tail s fcEffs).2 = fcEffs ++
      [EnableEffect.allocVmxRegion s.vmx_basic.revision_id,
       EnableEffect.setCr4Vmxe, EnableEffect.vmxon] := by
  unfold hardware_enable_tail
  split_ifs <;> simp

/-- A concrete host state whose CR0 is not VMX-legal: FIXED0 requires
bit 0 but host CR0 = 0x2 has it clear.  Everything else is in order. -/
def illegalCr0Host : VmxHost :=
  { has_hardware_support := true
    cr4_vmxe := false
    feature_control := { locked := true, vmxonOutsideSmx := true }
    cr0 := 2
    cr0_fixed0 := 1
    cr0_fixed1 := 0xffffffffffffffff
    cr4 := 0x2000
    cr4_fixed0 := 0x2000
    cr4_fixed1 := 0xffffffffffffffff
    vmx_basic := {}
    vmxon_ok := true }

/-- Claim C1, counterevidence: with host CR0 = 0x2 and
IA32_VMX_CR0_FIXED0 = 0x1 (bit 0 required but clear), the value is not
VMX-legal in the spec's sense, yet hardware_enable does not return
BadState: its check compares the two OR-expressions against zero instead
of against all-ones, so it accepts the illegal CR0 and proceeds all the
way to VMXON. -/
theorem hardware_enable_accepts_illegal_cr0 :
    ¬ vmx_legal illegalCr0Host.cr0 illegalCr0Host.cr0_fixed0 illegalCr0Host.cr0_fixed1 ∧
    (hardware_enable illegalCr0Host).1 = Except.ok () ∧
    cr_check_passes illegalCr0Host.cr0 illegalCr0Host.cr0_fixed0 illegalCr0Host.cr0_fixed1
      = true := by
  refine ⟨by decide, by rfl, by rfl⟩

/-- Claim C8: hardware_enable fails fast, in order, with the specified
error kinds.  Missing CPUID VMX support yields Unsupported before
anything else happens; an already-enabled CPU yields ResourceBusy with no
effects; an unlocked feature-control MSR is written back with LOCKED and
VMXON_ENABLED_OUTSIDE_SMX added; a locked MSR without VMXON-outside-SMX
yields Unsupported; and in each of these failure cases no region is
allocated, CR4.VMXE is not set and VMXON is not executed. -/
theorem hardware_enable_failfast_spec (s : VmxHost) :
    (¬ s.has_hardware_support →
      hardware_enable s = (Except.error AxError.Unsupported, [])) ∧
    (s.has_hardware_support → s.cr4_vmxe →
      hardware_enable s = (Except.error AxError.ResourceBusy, [])) ∧
    (s.has_hardware_support → ¬ s.cr4_vmxe → ¬ s.feature_control.locked →
      ∃ rest, (hardware_enable s).2 =
        EnableEffect.enableXsave ::
        EnableEffect.writeFeatureControl
          { s.feature_control with locked := true, vmxonOutsideSmx := true } :: rest) ∧
    (s.has_hardware_support → ¬ s.cr4_vmxe →
      s.feature_control.locked → ¬ s.feature_control.vmxonOutsideSmx →
      hardware_enable s = (Except.error AxError.Unsupported, [EnableEffect.enableXsave])) := by
  refine ⟨?_, ?_, ?_, ?_⟩
  · intro h
    unfold hardware_enable
    rw [if_pos h]
  · intro h1 h2
    unfold hardware_enable
    rw [if_neg (not_not_intro h1), if_pos h2]
  · intro h1 h2 h3
    have hfc : feature_control_effects s.feature_control =
        [EnableEffect.enableXsave,
         EnableEffect.writeFeatureControl
           { s.feature_control with locked := true, vmxonOutsideSmx := true }] := by
      unfold feature_control_effects
      rw [if_pos h3]
    have hred : hardware_enable s =
        hardware_enable_tail s (feature_control_effects s.feature_control) := by
      unfold hardware_enable
      rw [if_neg (not_not_intro h1), if_neg h2, if_neg (fun hc => h3 hc.1)]
    rcases hardware_enable_tail_effects s (feature_control_effects s.feature_control) with h | h
    · exact ⟨[], by rw [hred, h, hfc]⟩
    · refine ⟨[EnableEffect.allocVmxRegion s.vmx_basic.revision_id,
        EnableEffect.setCr4Vmxe, EnableEffect.vmxon], ?_⟩
      rw [hred, h, hfc]
      rfl
  · intro h1 h2 h3 h4
    have hfc : feature_control_effects s.feature_control = [EnableEffect.enableXsave] := by
      unfold feature_control_effects
      rw [if_neg (not_not_intro h3)]
    unfold hardware_enable
    rw [if_neg (not_not_intro h1), if_neg h2, if_pos ⟨h3, h4⟩, hfc]

/-- Witness for claim C8: the ResourceBusy and BIOS-disabled branches at
concrete host states. -/
theorem hardware_enable_failfast_spec_witness :
    hardware_enable { illegalCr0Host with cr4_vmxe := true }
      = (Except.error AxError.ResourceBusy, []) ∧
    hardware_enable
      { illegalCr0Host with
        feature_control := { locked := true, vmxonOutsideSmx := false } }
      = (Except.error AxError.Unsupported, [EnableEffect.enableXsave]) := by
  constructor
  · exact (hardware_enable_failfast_spec _).2.1 (by decide) (by decide)
  · exact (hardware_enable_failfast_spec _).2.2.2 (by decide) (by decide) (by decide) (by decide)

/- ------------------------------------------------------------------
Guest control registers: VmxVcpu::set_cr (vcpu.rs:820-856).
------------------------------------------------------------------ -/

/-- Cr0Flags::PROTECTED_MODE_ENABLE. -/
def CR0_PE : Nat := 1
/-- Cr0Flags::NOT_WRITE_THROUGH. -/
def CR0_NW : Nat := 1 <<< 29
/-- Cr0Flags::CACHE_DISABLE. -/
def CR0_CD : Nat := 1 <<< 30
/-- Cr0Flags::PAGING. -/
def CR0_PG : Nat := 1 <<< 31
/-- Cr4Flags::VIRTUAL_MACHINE_EXTENSIONS. -/
def CR4_VMXE : Nat := 1 <<< 13
/-- RFlags::INTERRUPT_FLAG. -/
def RFLAGS_IF : Nat := 1 <<< 9
/-- PrimaryControls::INTERRUPT_WINDOW_EXITING (bit 2 of the primary
processor-based execution controls). -/
def PRIMARY_CTRL_INTERRUPT_WINDOW : Nat := 1 <<< 2

/-- The four VMX fixed-bit MSRs consulted by set_cr. -/
structure VmxMsrs where
  cr0_fixed0 : Nat := 0
  cr0_fixed1 : Nat := 0xffffffffffffffff
  cr4_fixed0 : Nat := 0
  cr4_fixed1 : Nat := 0xffffffffffffffff
deriving DecidableEq, Repr

/-- The guest-side and control VMCS fields this development tracks. -/
structure GuestVmcs where
  cr0 : Nat := 0
  cr3 : Nat := 0
  cr4 : Nat := 0
  cr0_read_shadow : Nat := 0
  cr0_guest_host_mask : Nat := 0
  cr4_read_shadow : Nat := 0
  cr4_guest_host_mask : Nat := 0
  rip : Nat := 0
  rflags : Nat := 0
  interruptibility_state : Nat := 0
  primary_exec_controls : Nat := 0
  entry_interruption : Option (Nat × Option Nat) := none
  preemption_timer : Nat := 0
deriving DecidableEq, Repr

/-- VmxVcpu::set_cr (vcpu.rs:820-856): write a guest control register,
its read-shadow and its guest-host mask, under the fixed-bit MSR
contract.  Index 3 writes CR3 verbatim; other indices are unreachable in
the source and leave the VMCS unchanged here. -/
def set_cr (msrs : VmxMsrs) (vmcs : GuestVmcs) (cr_idx : Nat) (val : Nat) : GuestVmcs :=
  match cr_idx with
  | 0 =>
    let must0 := msrs.cr0_fixed1 &&& compl64 (CR0_NW ||| CR0_CD)
    let must1 := msrs.cr0_fixed0 &&& compl64 (CR0_PG ||| CR0_PE)
    { vmcs with
      cr0 := (val &&& must0) ||| must1
      cr0_read_shadow := val
      cr0_guest_host_mask := must1 ||| compl64 must0 }
  | 3 => { vmcs with cr3 := val }
  | 4 =>
    let must0 := msrs.cr4_fixed1
    let must1 := msrs.cr4_fixed0
    let val := val ||| CR4_VMXE
    { vmcs with
      cr4 := (val &&& must0) ||| must1
      cr4_read_shadow := val
      cr4_guest_host_mask := must1 ||| compl64 must0 }
  | _ => vmcs

/-- Conjunction distributes over disjunction bitwise. -/
theorem land_lor_distrib (a b c : Nat) : (a ||| b) &&& c = (a &&& c) ||| (b &&& c) := by
  apply Nat.eq_of_testBit_eq
  intro i
  simp [Nat.testBit_land, Nat.testBit_lor, Bool.and_or_distrib_right]

/-- Claim C3: set_cr writes (V and must0) or must1 to the guest CR field
with the must-masks of the source (CR0: must0 = FIXED1 less NW and CD,
must1 = FIXED0 less PG and PE; CR4: must0 = FIXED1, must1 = FIXED0 after
V gains the VMXE bit), the requested value to the read-shadow, and
must1 or complement of must0 to the guest-host mask; consequently NW and
CD are forced clear in guest CR0 (whenever FIXED0 does not assert them),
PE and PG follow the request (whenever FIXED1 allows them), and CR4.VMXE
is forced on (whenever FIXED1 allows it). -/
theorem set_cr_masks_and_shadow (msrs : VmxMsrs) (vmcs : GuestVmcs) (v : Nat) :
    ((set_cr msrs vmcs 0 v).cr0 =
      (v &&& (msrs.cr0_fixed1 &&& compl64 (CR0_NW ||| CR0_CD)))
        ||| (msrs.cr0_fixed0 &&& compl64 (CR0_PG ||| CR0_PE)) ∧
     (set_cr msrs vmcs 0 v).cr0_read_shadow = v ∧
     (set_cr msrs vmcs 0 v).cr0_guest_host_mask =
      (msrs.cr0_fixed0 &&& compl64 (CR0_PG ||| CR0_PE))
        ||| compl64 (msrs.cr0_fixed1 &&& compl64 (CR0_NW ||| CR0_CD))) ∧
    ((set_cr msrs vmcs 4 v).cr4 =
      ((v ||| CR4_VMXE) &&& msrs.cr4_fixed1) ||| msrs.cr4_fixed0 ∧
     (set_cr msrs vmcs 4 v).cr4_read_shadow = v ||| CR4_VMXE ∧
     (set_cr msrs vmcs 4 v).cr4_guest_host_mask =
      msrs.cr4_fixed0 ||| compl64 msrs.cr4_fixed1) ∧
    (msrs.cr0_fixed0 &&& (CR0_NW ||| CR0_CD) = 0 →
      (set_cr msrs vmcs 0 v).cr0 &&& (CR0_NW ||| CR0_CD) = 0) ∧
    (msrs.cr0_fixed1.testBit 0 = true →
      (set_cr msrs vmcs 0 v).cr0.testBit 0 = v.testBit 0) ∧
    (msrs.cr0_fixed1.testBit 31 = true →
      (set_cr msrs vmcs 0 v).cr0.testBit 31 = v.testBit 31) ∧
    (msrs.cr4_fixed1.testBit 13 = true →
      (set_cr msrs vmcs 4 v).cr4.testBit 13 = true) := by
  refine ⟨⟨rfl, rfl, rfl⟩, ⟨rfl, rfl, rfl⟩, ?_, ?_, ?_, ?_⟩
  · intro h
    show ((v &&& (msrs.cr0_fixed1 &&& compl64 (CR0_NW ||| CR0_CD)))
        ||| (msrs.cr0_fixed0 &&& compl64 (CR0_PG ||| CR0_PE)))
        &&& (CR0_NW ||| CR0_CD) = 0
    have e1 : msrs.cr0_fixed1 &&& compl64 (CR0_NW ||| CR0_CD) &&& (CR0_NW ||| CR0_CD) = 0 := by
      rw [Nat.land_assoc,
        (by decide : compl64 (CR0_NW ||| CR0_CD) &&& (CR0_NW ||| CR0_CD) = 0), Nat.and_zero]
    have e2 : msrs.cr0_fixed0 &&& compl64 (CR0_PG ||| CR0_PE) &&& (CR0_NW ||| CR0_CD) = 0 := by
      rw [Nat.land_assoc,
        (by decide : compl64 (CR0_PG ||| CR0_PE) &&& (CR0_NW ||| CR0_CD)
          = ((CR0_NW ||| CR0_CD : Nat)))]
      exact h
    rw [land_lor_distrib, Nat.land_assoc, e1, Nat.and_zero, e2]
    decide
  · intro h
    show ((v &&& (msrs.cr0_fixed1 &&& compl64 (CR0_NW ||| CR0_CD)))
        ||| (msrs.cr0_fixed0 &&& compl64 (CR0_PG ||| CR0_PE))).testBit 0 = v.testBit 0
    simp only [Nat.testBit_lor, Nat.testBit_land, h,
      (by decide : (compl64 (CR0_NW ||| CR0_CD)).testBit 0 = true),
      (by decide : (compl64 (CR0_PG ||| CR0_PE)).testBit 0 = false),
      Bool.and_true, Bool.and_false, Bool.or_false]
  · intro h
    show ((v &&& (msrs.cr0_fixed1 &&& compl64 (CR0_NW ||| CR0_CD)))
        ||| (msrs.cr0_fixed0 &&& compl64 (CR0_PG ||| CR0_PE))).testBit 31 = v.testBit 31
    simp only [Nat.testBit_lor, Nat.testBit_land, h,
      (by decide : (compl64 (CR0_NW ||| CR0_CD)).testBit 31 = true),
      (by decide : (compl64 (CR0_PG ||| CR0_PE)).testBit 31 = false),
      Bool.and_true, Bool.and_false, Bool.or_false]
  · intro h
    show (((v ||| CR4_VMXE) &&& msrs.cr4_fixed1) ||| msrs.cr4_fixed0).testBit 13 = true
    simp only [Nat.testBit_lor, Nat.testBit_land, h,
      (by decide : (CR4_VMXE : Nat).testBit 13 = true),
      Bool.or_true, Bool.and_true, Bool.true_or, Bool.true_and]

/-- Witness for claim C3 at FIXED0 = 0x80000021 (NE, ET, PG-class bits),
FIXED1 = all-ones, V = 0x60000013: the guest CR0 keeps the requested PE
while the forced NW and CD are cleared, and CR4 gains VMXE. -/
theorem set_cr_masks_and_shadow_witness :
    (set_cr { cr0_fixed0 := 0x80000021 } {} 0 0x60000013).cr0 &&& (CR0_NW ||| CR0_CD) = 0 ∧
    (set_cr { cr0_fixed0 := 0x80000021 } {} 0 0x60000013).cr0.testBit 0 = true ∧
    (set_cr { cr0_fixed0 := 0x80000021 } {} 4 0).cr4.testBit 13 = true := by
  refine ⟨(set_cr_masks_and_shadow { cr0_fixed0 := 0x80000021 } {} 0x60000013).2.2.1 (by decide),
    ?_, (set_cr_masks_and_shadow { cr0_fixed0 := 0x80000021 } {} 0).2.2.2.2.2 (by decide)⟩
  rw [(set_cr_masks_and_shadow { cr0_fixed0 := 0x80000021 } {} 0x60000013).2.2.2.1 (by decide)]
  decide

/- ------------------------------------------------------------------
Pending-event queue: VmxVcpu::allow_interrupt (vcpu.rs:935-940),
VmxVcpu::set_interrupt_window (vcpu.rs:474-484) and
VmxVcpu::inject_pending_events (vcpu.rs:943-960).
------------------------------------------------------------------ -/

/-- VmxVcpu::allow_interrupt (vcpu.rs:935): guest interrupts are
unblocked when RFLAGS.IF is set and the interruptibility state is 0. -/
def allow_interrupt (vmcs : GuestVmcs) : Bool :=
  decide (vmcs.rflags &&& RFLAGS_IF ≠ 0 ∧ vmcs.interruptibility_state = 0)

/-- VmxVcpu::set_interrupt_window (vcpu.rs:474): set or clear the
interrupt-window-exiting bit of the primary processor-based execution
controls. -/
def set_interrupt_window (vmcs : GuestVmcs) (enable : Bool) : GuestVmcs :=
  let bits := PRIMARY_CTRL_INTERRUPT_WINDOW
  let ctrl := vmcs.primary_exec_controls
  let ctrl := if enable then ctrl ||| bits else ctrl &&& compl32 bits
  { vmcs with primary_exec_controls := ctrl }

/-- vmcs::inject_event is in vmcs.rs, which is not under src/; modelled
from the spec: injection writes the event into the VM-entry
interruption-information field. -/
def inject_event (vmcs : GuestVmcs) (vector : Nat) (err : Option Nat) : GuestVmcs :=
  { vmcs with entry_interruption := some (vector, err) }

/-- The vCPU state that inject_pending_events touches: the FIFO of
pending (vector, error-code) pairs and the VMCS. -/
structure VcpuEvState where
  pending_events : List (Nat × Option Nat)
  vmcs : GuestVmcs
deriving DecidableEq, Repr

/-- VmxVcpu::inject_pending_events (vcpu.rs:943-960): look at the queue
head; inject and pop it when it is an exception (vector below 32) or
interrupts are unblocked, otherwise leave the queue alone and enable
interrupt-window exiting. -/
def inject_pending_events (s : VcpuEvState) : VcpuEvState :=
  match s.pending_events with
  | [] => s
  | (v, e) :: rest =>
    if v < 32 ∨ allow_interrupt s.vmcs then
      { s with vmcs := inject_event s.vmcs v e, pending_events := rest }
    else
      { s with vmcs := set_interrupt_window s.vmcs true }

/-- Claim C4: a run of inject_pending_events pops the head event only
when it is an exception or interrupts are unblocked at that moment; a
blocked interrupt leaves the queue and the injection field untouched and
turns interrupt-window exiting on; the queue is consumed strictly from
the front (the new queue is the old queue or its tail, never a
reordering); an empty queue changes nothing. -/
theorem inject_pending_events_spec (s : VcpuEvState) :
    (s.pending_events = [] → inject_pending_events s = s) ∧
    (∀ v e rest, s.pending_events = (v, e) :: rest →
      (v < 32 ∨ allow_interrupt s.vmcs = true) →
      (inject_pending_events s).pending_events = rest ∧
      (inject_pending_events s).vmcs = inject_event s.vmcs v e) ∧
    (∀ v e rest, s.pending_events = (v, e) :: rest →
      ¬ v < 32 → allow_interrupt s.vmcs = false →
      (inject_pending_events s).pending_events = s.pending_events ∧
      (inject_pending_events s).vmcs.entry_interruption = s.vmcs.entry_interruption ∧
      (inject_pending_events s).vmcs.primary_exec_controls.testBit 2 = true ∧
      (inject_pending_events s).vmcs = set_interrupt_window s.vmcs true) ∧
    ((inject_pending_events s).pending_events = s.pending_events ∨
     (inject_pending_events s).pending_events = s.pending_events.tail) := by
  refine ⟨?_, ?_, ?_, ?_⟩
  · intro h
    unfold inject_pending_events
    rw [h]
  · intro v e rest hq hc
    have hc2 : v < 32 ∨ allow_interrupt s.vmcs = true := hc
    have key : inject_pending_events s =
        { s with vmcs := inject_event s.vmcs v e, pending_events := rest } := by
      unfold inject_pending_events
      rw [hq]
      exact if_pos hc2
    rw [key]
    exact ⟨rfl, rfl⟩
  · intro v e rest hq h1 h2
    have hc : ¬ (v < 32 ∨ allow_interrupt s.vmcs = true) := by
      rintro (h | h)
      · exact h1 h
      · rw [h2] at h
        exact Bool.false_ne_true h
    have key : inject_pending_events s =
        { s with vmcs := set_interrupt_window s.vmcs true } := by
      unfold inject_pending_events
      rw [hq]
      exact if_neg hc
    rw [key]
    refine ⟨rfl, rfl, ?_, rfl⟩
    show ((s.vmcs.primary_exec_controls ||| PRIMARY_CTRL_INTERRUPT_WINDOW)).testBit 2 = true
    simp only [Nat.testBit_lor,
      (by decide : (PRIMARY_CTRL_INTERRUPT_WINDOW : Nat).testBit 2 = true), Bool.or_true]
  · rcases hq : s.pending_events with _ | ⟨⟨v, e⟩, rest⟩
    · left
      have key : inject_pending_events s = s := by
        unfold inject_pending_events
        rw [hq]
      rw [key]
      exact hq
    · by_cases hc : v < 32 ∨ allow_interrupt s.vmcs = true
      · right
        have key : inject_pending_events s =
            { s with vmcs := inject_event s.vmcs v e, pending_events := rest } := by
          unfold inject_pending_events
          rw [hq]
          exact if_pos hc
        rw [key]
        rfl
      · left
        have key : inject_pending_events s =
            { s with vmcs := set_interrupt_window s.vmcs true } := by
          unfold inject_pending_events
          rw [hq]
          exact if_neg hc
        rw [key]
        exact hq

/-- A state with one blocked external interrupt queued: vector 33 while
guest RFLAGS.IF is clear. -/
def blockedIntState : VcpuEvState :=
  { pending_events := [(33, none)], vmcs := {} }

/-- Witness for claim C4: the blocked interrupt of blockedIntState is not
popped and interrupt-window exiting is turned on. -/
theorem inject_pending_events_spec_witness :
    (inject_pending_events blockedIntState).pending_events = [(33, none)] ∧
    (inject_pending_events blockedIntState).vmcs.primary_exec_controls.testBit 2 = true := by
  have h := (inject_pending_events_spec blockedIntState).2.2.1
    33 none [] rfl (by decide) (by decide)
  exact ⟨h.1, h.2.2.1⟩

/- ------------------------------------------------------------------
Run-loop exit dispatch (AxArchVCpu::run, vcpu.rs:1319-1418) and the
builtin handler (VmxVcpu::builtin_vmexit_handler, vcpu.rs:965-992).
------------------------------------------------------------------ -/

/-- The VM-exit reasons the dispatch of run and builtin_vmexit_handler
distinguishes (VmxExitReason of definitions.rs is not under src/;
modelled from the spec's run-loop description, every other reason
collapsed into OTHER). -/
inductive VmxExitReason
  | EXTERNAL_INTERRUPT
  | INTERRUPT_WINDOW
  | CPUID
  | VMCALL
  | CR_ACCESS
  | MSR_READ
  | MSR_WRITE
  | IO_INSTRUCTION
  | XSETBV
  | PREEMPTION_TIMER
  | APIC_ACCESS
  | OTHER
deriving DecidableEq, Repr

/-- Decoded basic exit information (VmxExitInfo of vmcs.rs, not under
src/; modelled from the spec: exit reason, entry-failure flag, exit
instruction length, guest RIP). -/
structure VmxExitInfo where
  exit_reason : VmxExitReason
  entry_failure : Bool := false
  exit_instruction_length : Nat := 0
  guest_rip : Nat := 0
deriving DecidableEq, Repr

/-- Decoded I/O-exit information (VmxIoExitInfo of vmcs.rs, not under
src/; modelled from the spec: port, access size in bytes, direction and
string/REP flags). -/
structure VmxIoExitInfo where
  port : Nat
  access_size : Nat
  is_string : Bool := false
  is_repeat : Bool := false
  is_in : Bool := false
deriving DecidableEq, Repr

/-- Access widths of axaddrspace (external collaborator): byte, word,
dword, qword together with the conversion from a size in bytes. -/
inductive AccessWidth
  | Byte
  | Word
  | Dword
  | Qword
deriving DecidableEq, Repr

/-- AccessWidth::try_from for a size in bytes. -/
def access_width_try_from : Nat → Option AccessWidth
  | 1 => some AccessWidth.Byte
  | 2 => some AccessWidth.Word
  | 4 => some AccessWidth.Dword
  | 8 => some AccessWidth.Qword
  | _ => none

/-- Width of an AccessWidth in bits (the upper end of bits_range). -/
def access_width_bits : AccessWidth → Nat
  | AccessWidth.Byte => 8
  | AccessWidth.Word => 16
  | AccessWidth.Dword => 32
  | AccessWidth.Qword => 64

/-- The exit reasons run returns to the supervisor (AxVCpuExitReason of
the axvcpu crate, external collaborator; fields restricted to those this
dispatch fills). -/
inductive AxVCpuExitReason
  | Nothing
  | FailEntry (hardware_entry_failure_reason : Nat)
  | Hypercall (nr : Nat) (args : List Nat)
  | IoRead (port : Nat) (width : AccessWidth)
  | IoWrite (port : Nat) (width : AccessWidth) (data : Nat)
  | SystemDown
  | ExternalInterrupt (vector : Nat)
  | SysRegRead (addr : Nat)
  | SysRegWrite (addr : Nat) (value : Nat)
  | Halt
deriving DecidableEq, Repr

/-- QEMU_EXIT_PORT (vcpu.rs:39). -/
def QEMU_EXIT_PORT : Nat := 0x604
/-- QEMU_EXIT_MAGIC (vcpu.rs:40). -/
def QEMU_EXIT_MAGIC : Nat := 0x2000

/-- The IO_INSTRUCTION arm of run (vcpu.rs:1342-1386): RIP is advanced by
the exit instruction length first; string or REP accesses surface Halt;
an undecodable access size surfaces Halt; an IN becomes IoRead; a
word-sized OUT of RAX = 0x2000 to port 0x604 becomes SystemDown; any
other OUT becomes IoWrite with the low width-many bits of RAX.  Returns
the surfaced exit and the new guest RIP. -/
def handle_io_instruction (io : VmxIoExitInfo) (rax rip instr_len : Nat) :
    AxVCpuExitReason × Nat :=
  let rip2 := rip + instr_len
  if io.is_repeat || io.is_string then (AxVCpuExitReason.Halt, rip2)
  else
    match access_width_try_from io.access_size with
    | none => (AxVCpuExitReason.Halt, rip2)
    | some width =>
      if io.is_in then (AxVCpuExitReason.IoRead io.port width, rip2)
      else if io.port = QEMU_EXIT_PORT ∧ width = AccessWidth.Word ∧ rax = QEMU_EXIT_MAGIC then
        (AxVCpuExitReason.SystemDown, rip2)
      else
        (AxVCpuExitReason.IoWrite io.port width
          (rax % 2 ^ access_width_bits width), rip2)

/-- X2APIC_MSR_BASE (vcpu.rs:966). -/
def X2APIC_MSR_BASE : Nat := 0x800
/-- X2APIC_MSR_END (vcpu.rs:967; the source follows the SDM and uses
0x8ff rather than 0x83f). -/
def X2APIC_MSR_END : Nat := 0x8ff

/-- The dispatch condition of VmxVcpu::builtin_vmexit_handler
(vcpu.rs:965-992): true exactly when the exit is consumed internally, in
which case inner_run returns None and run returns Nothing (vcpu.rs:
325-339 and 1416), assuming the handler itself returns Ok. -/
def builtin_handles (reason : VmxExitReason) (rcx : Nat) : Bool :=
  match reason with
  | VmxExitReason.INTERRUPT_WINDOW => true
  | VmxExitReason.PREEMPTION_TIMER => true
  | VmxExitReason.XSETBV => true
  | VmxExitReason.CR_ACCESS => true
  | VmxExitReason.CPUID => true
  | VmxExitReason.MSR_READ =>
      decide (X2APIC_MSR_BASE ≤ rcx &&& 0xffffffff ∧ rcx &&& 0xffffffff ≤ X2APIC_MSR_END)
  | VmxExitReason.MSR_WRITE =>
      decide (X2APIC_MSR_BASE ≤ rcx &&& 0xffffffff ∧ rcx &&& 0xffffffff ≤ X2APIC_MSR_END)
  | VmxExitReason.APIC_ACCESS => true
  | _ => false

/-- The surfacing arm of run (vcpu.rs:1319-1418) for an exit the builtin
handler declined: entry failure surfaces FailEntry, VMCALL builds a
Hypercall from RAX and the six argument registers, IO_INSTRUCTION
delegates to handle_io_instruction, EXTERNAL_INTERRUPT reports the
vector, MSR_READ and MSR_WRITE surface SysReg accesses, anything else
Halt.  Returns the exit and the new guest RIP. -/
def run_surface_exit (info : VmxExitInfo) (io : VmxIoExitInfo) (int_vector : Nat)
    (regs : GeneralRegisters) (rip : Nat) : AxVCpuExitReason × Nat :=
  if info.entry_failure then (AxVCpuExitReason.FailEntry 0, rip)
  else
    match info.exit_reason with
    | VmxExitReason.VMCALL =>
      (AxVCpuExitReason.Hypercall regs.rax
        [regs.rdi, regs.rsi, regs.rdx, regs.rcx, regs.r8, regs.r9],
       rip + info.exit_instruction_length)
    | VmxExitReason.IO_INSTRUCTION =>
      handle_io_instruction io regs.rax rip info.exit_instruction_length
    | VmxExitReason.EXTERNAL_INTERRUPT => (AxVCpuExitReason.ExternalInterrupt int_vector, rip)
    | VmxExitReason.MSR_READ => (AxVCpuExitReason.SysRegRead (regs.rcx &&& 0xffffffff), rip)
    | VmxExitReason.MSR_WRITE =>
      (AxVCpuExitReason.SysRegWrite (regs.rcx &&& 0xffffffff)
        ((regs.rax &&& 0xffffffff) ||| ((regs.rdx &&& 0xffffffff) <<< 32)), rip)
    | _ => (AxVCpuExitReason.Halt, rip)

/-- Claim C5: for every I/O-instruction VM-exit surfaced by run, a string
or REP access surfaces Halt; otherwise, whenever the reported access size
decodes to a width (the hardware-possible sizes 1, 2 and 4 all do), an IN
surfaces IoRead, a word-sized OUT to port 0x604 with RAX = 0x2000
surfaces SystemDown, and every other OUT surfaces IoWrite with the
truncated data; guest RIP is advanced by the exit-reported instruction
length in all of these cases, and the builtin handler never consumes an
I/O exit. -/
theorem io_exit_dispatch_spec (io : VmxIoExitInfo) (int_vector : Nat)
    (regs : GeneralRegisters) (rip len : Nat) :
    (∀ rcx, builtin_handles VmxExitReason.IO_INSTRUCTION rcx = false) ∧
    (run_surface_exit
      { exit_reason := VmxExitReason.IO_INSTRUCTION, exit_instruction_length := len }
      io int_vector regs rip
      = handle_io_instruction io regs.rax rip len) ∧
    ((handle_io_instruction io regs.rax rip len).2 = rip + len) ∧
    ((io.is_repeat || io.is_string) = true →
      (handle_io_instruction io regs.rax rip len).1 = AxVCpuExitReason.Halt) ∧
    (∀ w, (io.is_repeat || io.is_string) = false →
      access_width_try_from io.access_size = some w →
      (io.is_in = true →
        (handle_io_instruction io regs.rax rip len).1 = AxVCpuExitReason.IoRead io.port w) ∧
      (io.is_in = false →
        (io.port = QEMU_EXIT_PORT ∧ w = AccessWidth.Word ∧ regs.rax = QEMU_EXIT_MAGIC →
          (handle_io_instruction io regs.rax rip len).1 = AxVCpuExitReason.SystemDown) ∧
        (¬ (io.port = QEMU_EXIT_PORT ∧ w = AccessWidth.Word ∧ regs.rax = QEMU_EXIT_MAGIC) →
          (handle_io_instruction io regs.rax rip len).1
            = AxVCpuExitReason.IoWrite io.port w (regs.rax % 2 ^ access_width_bits w)))) := by
  refine ⟨fun _ => rfl, rfl, ?_, ?_, ?_⟩
  · unfold handle_io_instruction
    split
    · rfl
    · split
      · rfl
      · split_ifs <;> rfl
  · intro h
    unfold handle_io_instruction
    rw [h]
    simp
  · intro w hrs haw
    have key : handle_io_instruction io regs.rax rip len =
        (if io.is_in then (AxVCpuExitReason.IoRead io.port w, rip + len)
         else if io.port = QEMU_EXIT_PORT ∧ w = AccessWidth.Word ∧ regs.rax = QEMU_EXIT_MAGIC then
           (AxVCpuExitReason.SystemDown, rip + len)
         else
           (AxVCpuExitReason.IoWrite io.port w
             (regs.rax % 2 ^ access_width_bits w), rip + len)) := by
      unfold handle_io_instruction
      rw [hrs, haw]
      simp
    constructor
    · intro hin
      rw [key, hin]
      simp
    · intro hin
      rw [key, hin]
      constructor
      · intro hcond
        simp only [Bool.false_eq_true, if_false, if_pos hcond]
      · intro hcond
        simp only [Bool.false_eq_true, if_false, if_neg hcond]

/-- Witness for claim C5: a word-sized OUT to port 0x604 with
RAX = 0x2000 surfaces SystemDown. -/
theorem io_exit_dispatch_spec_witness :
    (handle_io_instruction
      { port := 0x604, access_size := 2 } 0x2000 0x7000 2).1
      = AxVCpuExitReason.SystemDown := by
  exact (((io_exit_dispatch_spec { port := 0x604, access_size := 2 } 0
    { rax := 0x2000 } 0x7000 2).2.2.2.2 AccessWidth.Word (by decide) (by decide)).2
      (by decide)).1 (by refine ⟨rfl, rfl, rfl⟩)

/- ------------------------------------------------------------------
x2APIC MSR routing: VmxVcpu::handle_apic_msr_access (vcpu.rs:1005-1037).
------------------------------------------------------------------ -/

/-- Outcome of one handle_apic_msr_access call: the register file, the
new guest RIP and the (address, width, value) triple passed to the
vLAPIC handle_write, when one was made.  The vLAPIC itself is an external
collaborator; a read is an oracle value supplied as vlapic_read_val and
the claim assumes the vLAPIC call succeeds. -/
structure ApicMsrOutcome where
  regs : GeneralRegisters
  rip : Nat
  vlapic_write : Option (Nat × AccessWidth × Nat)
deriving DecidableEq, Repr

/-- VmxVcpu::handle_apic_msr_access (vcpu.rs:1005-1037): advance RIP by
2, then either pass the EDX:EAX value to the vLAPIC write handler or
place the vLAPIC read result into EDX:EAX. -/
def handle_apic_msr_access (write : Bool) (msr : Nat) (regs : GeneralRegisters)
    (rip : Nat) (vlapic_read_val : Nat) : ApicMsrOutcome :=
  let rip2 := rip + 2
  if write then
    let value := read_edx_eax regs
    { regs := regs, rip := rip2, vlapic_write := some (msr, AccessWidth.Qword, value) }
  else
    { regs := write_edx_eax regs vlapic_read_val, rip := rip2, vlapic_write := none }

/-- Claim C6: an MSR_READ or MSR_WRITE exit with ECX in 0x800..0x8ff is
consumed by the builtin handler, so run returns Nothing; the write passes
the Qword value (EDX shifted left 32) or EAX to the vLAPIC write handler
at address ECX, the read places the vLAPIC result into EDX:EAX, and in
both directions guest RIP is advanced by 2. -/
theorem apic_msr_exit_spec (reason : VmxExitReason) (regs : GeneralRegisters)
    (rip vread : Nat)
    (hreason : reason = VmxExitReason.MSR_READ ∨ reason = VmxExitReason.MSR_WRITE)
    (hlo : X2APIC_MSR_BASE ≤ regs.rcx &&& 0xffffffff)
    (hhi : regs.rcx &&& 0xffffffff ≤ X2APIC_MSR_END) :
    builtin_handles reason regs.rcx = true ∧
    (handle_apic_msr_access true (regs.rcx &&& 0xffffffff) regs rip vread).rip = rip + 2 ∧
    (handle_apic_msr_access true (regs.rcx &&& 0xffffffff) regs rip vread).vlapic_write
      = some (regs.rcx &&& 0xffffffff, AccessWidth.Qword,
          ((regs.rdx &&& 0xffffffff) <<< 32) ||| (regs.rax &&& 0xffffffff)) ∧
    (handle_apic_msr_access true (regs.rcx &&& 0xffffffff) regs rip vread).regs = regs ∧
    (handle_apic_msr_access false (regs.rcx &&& 0xffffffff) regs rip vread).rip = rip + 2 ∧
    (handle_apic_msr_access false (regs.rcx &&& 0xffffffff) regs rip vread).regs
      = write_edx_eax regs vread ∧
    (handle_apic_msr_access false (regs.rcx &&& 0xffffffff) regs rip vread).vlapic_write
      = none := by
  refine ⟨?_, rfl, rfl, rfl, rfl, rfl, rfl⟩
  rcases hreason with h | h <;> rw [h] <;> exact decide_eq_true ⟨hlo, hhi⟩

/-- Witness for claim C6: a guest write to MSR 0x830 (the x2APIC ICR)
with EDX:EAX = 0x11223344_00000697 is consumed and forwarded to the
vLAPIC as a Qword. -/
theorem apic_msr_exit_spec_witness :
    builtin_handles VmxExitReason.MSR_WRITE 0x830 = true ∧
    (handle_apic_msr_access true 0x830
      { rcx := 0x830, rax := 0x697, rdx := 0x11223344 } 0x9000 0).vlapic_write
      = some (0x830, AccessWidth.Qword, 0x1122334400000697) := by
  have h := apic_msr_exit_spec VmxExitReason.MSR_WRITE
    { rcx := 0x830, rax := 0x697, rdx := 0x11223344 } 0x9000 0
    (Or.inr rfl) (by decide) (by decide)
  refine ⟨h.1, ?_⟩
  rw [(by decide : (0x830 : Nat) &&& 0xffffffff = 0x830)] at h
  rw [h.2.2.1]
  rfl

/- ------------------------------------------------------------------
CPUID handler: VmxVcpu::handle_cpuid (vcpu.rs:1107-1194).
------------------------------------------------------------------ -/

/-- Result quadruple of one host CPUID execution (CpuIdResult of the
raw_cpuid crate, external collaborator). -/
structure CpuIdResult where
  eax : Nat
  ebx : Nat
  ecx : Nat
  edx : Nat
deriving DecidableEq, Repr

/-- The three little-endian u32 words of the ASCII vendor string
RVMRVMRVMRVM (vcpu.rs:1117-1118). -/
def VENDOR_WORD0 : Nat := 0x524d5652
def VENDOR_WORD1 : Nat := 0x56524d56
def VENDOR_WORD2 : Nat := 0x4d56524d

/-- VmxVcpu::handle_cpuid (vcpu.rs:1107-1194).  The host CPUID
instruction is an oracle host_cpuid applied to the guest EAX and ECX
(the cpuid macro truncates both to 32 bits); the leaf-0xd branch runs the
same oracle under guest xstate, which the oracle abstracts.  Writes the
result back to RAX, RBX, RCX, RDX and advances RIP by 2. -/
def handle_cpuid (host_cpuid : Nat → Nat → CpuIdResult) (regs : GeneralRegisters)
    (rip : Nat) : GeneralRegisters × Nat :=
  let function := regs.rax &&& 0xffffffff
  let subleaf := regs.rcx &&& 0xffffffff
  let res :=
    if function = 0x1 then
      let r := host_cpuid function subleaf
      let ecx2 := r.ecx &&& compl32 (1 <<< 5)
      let ecx3 := ecx2 ||| (1 <<< 31)
      let eax2 := r.eax &&& compl32 (1 <<< 7)
      { r with ecx := ecx3, eax := eax2 }
    else if function = 0x7 then
      let r := host_cpuid function subleaf
      if regs.rcx = 0 then
        { r with ecx := r.ecx &&& compl32 (1 <<< 5) &&& compl32 (1 <<< 16) }
      else r
    else if function = 0xd then host_cpuid function subleaf
    else if function = 0x40000000 then
      { eax := 0x40000001, ebx := VENDOR_WORD0, ecx := VENDOR_WORD1, edx := VENDOR_WORD2 }
    else if function = 0x40000001 then { eax := 0, ebx := 0, ecx := 0, edx := 0 }
    else if function = 0x16 then
      let r := host_cpuid function subleaf
      if r.eax = 0 then { r with eax := 3000 } else r
    else host_cpuid function subleaf
  ({ regs with rax := res.eax, rbx := res.ebx, rcx := res.ecx, rdx := res.edx }, rip + 2)

/-- Claim C7: handle_cpuid executes the host CPUID with the guest
EAX/ECX; leaf 1 clears ECX bit 5 (VMX), sets ECX bit 31 (HYPERVISOR) and
clears EAX bit 7 (MCE); leaf 0x40000000 returns EAX = 0x40000001 and
EBX/ECX/EDX spelling RVMRVMRVMRVM; leaf 0x40000001 returns zeroes; in
every case the result lands in the guest RAX/RBX/RCX/RDX and RIP
advances by 2. -/
theorem handle_cpuid_spec (host_cpuid : Nat → Nat → CpuIdResult)
    (regs : GeneralRegisters) (rip : Nat) :
    ((handle_cpuid host_cpuid regs rip).2 = rip + 2) ∧
    (regs.rax &&& 0xffffffff = 0x1 →
      (handle_cpuid host_cpuid regs rip).1.rcx
        = ((host_cpuid 0x1 (regs.rcx &&& 0xffffffff)).ecx &&& compl32 (1 <<< 5))
            ||| (1 <<< 31) ∧
      (handle_cpuid host_cpuid regs rip).1.rax
        = (host_cpuid 0x1 (regs.rcx &&& 0xffffffff)).eax &&& compl32 (1 <<< 7) ∧
      (handle_cpuid host_cpuid regs rip).1.rbx
        = (host_cpuid 0x1 (regs.rcx &&& 0xffffffff)).ebx ∧
      (handle_cpuid host_cpuid regs rip).1.rdx
        = (host_cpuid 0x1 (regs.rcx &&& 0xffffffff)).edx ∧
      (handle_cpuid host_cpuid regs rip).1.rcx.testBit 5 = false ∧
      (handle_cpuid host_cpuid regs rip).1.rcx.testBit 31 = true ∧
      (handle_cpuid host_cpuid regs rip).1.rax.testBit 7 = false) ∧
    (regs.rax &&& 0xffffffff = 0x40000000 →
      (handle_cpuid host_cpuid regs rip).1.rax = 0x40000001 ∧
      (handle_cpuid host_cpuid regs rip).1.rbx = VENDOR_WORD0 ∧
      (handle_cpuid host_cpuid regs rip).1.rcx = VENDOR_WORD1 ∧
      (handle_cpuid host_cpuid regs rip).1.rdx = VENDOR_WORD2) ∧
    (regs.rax &&& 0xffffffff = 0x40000001 →
      (handle_cpuid host_cpuid regs rip).1.rax = 0 ∧
      (handle_cpuid host_cpuid regs rip).1.rbx = 0 ∧
      (handle_cpuid host_cpuid regs rip).1.rcx = 0 ∧
      (handle_cpuid host_cpuid regs rip).1.rdx = 0) := by
  refine ⟨rfl, ?_, ?_, ?_⟩
  · intro h
    have key : handle_cpuid host_cpuid regs rip =
        ({ regs with
            rax := (host_cpuid 0x1 (regs.rcx &&& 0xffffffff)).eax &&& compl32 (1 <<< 7)
            rbx := (host_cpuid 0x1 (regs.rcx &&& 0xffffffff)).ebx
            rcx := ((host_cpuid 0x1 (regs.rcx &&& 0xffffffff)).ecx &&& compl32 (1 <<< 5))
              ||| (1 <<< 31)
            rdx := (host_cpuid 0x1 (regs.rcx &&& 0xffffffff)).edx }, rip + 2) := by
      unfold handle_cpuid
      rw [h]
      simp
    rw [key]
    refine ⟨rfl, rfl, rfl, rfl, ?_, ?_, ?_⟩
    · simp only [Nat.testBit_lor, Nat.testBit_land,
        (by decide : (compl32 (1 <<< 5)).testBit 5 = false),
        (by decide : ((1 : Nat) <<< 31).testBit 5 = false),
        Bool.and_false, Bool.or_false]
    · simp only [Nat.testBit_lor,
        (by decide : ((1 : Nat) <<< 31).testBit 31 = true), Bool.or_true]
    · simp only [Nat.testBit_land,
        (by decide : (compl32 (1 <<< 7)).testBit 7 = false), Bool.and_false]
  · intro h
    have key : handle_cpuid host_cpuid regs rip =
        (({ regs with
            rax := 0x40000001
            rbx := VENDOR_WORD0
            rcx := VENDOR_WORD1
            rdx := VENDOR_WORD2 } : GeneralRegisters), rip + 2) := by
      unfold handle_cpuid
      rw [h]
      simp
    rw [key]
    exact ⟨rfl, rfl, rfl, rfl⟩
  · intro h
    have key : handle_cpuid host_cpuid regs rip =
        (({ regs with
            rax := 0
            rbx := 0
            rcx := 0
            rdx := 0 } : GeneralRegisters), rip + 2) := by
      unfold handle_cpuid
      rw [h]
      simp
    rw [key]
    exact ⟨rfl, rfl, rfl, rfl⟩

/-- Witness for claim C7: with a host CPUID oracle reporting an all-ones
ECX on leaf 1, the guest sees bit 5 cleared and bit 31 set, and leaf
0x40000000 yields the vendor words. -/
theorem handle_cpuid_spec_witness :
    (handle_cpuid (fun _ _ => { eax := 0xffffffff, ebx := 2, ecx := 0xffffffff, edx := 3 })
      { rax := 1 } 0x9100).1.rcx.testBit 5 = false ∧
    (handle_cpuid (fun _ _ => { eax := 0, ebx := 0, ecx := 0, edx := 0 })
      { rax := 0x40000000 } 0x9100).1.rbx = VENDOR_WORD0 := by
  constructor
  · exact ((handle_cpuid_spec
      (fun _ _ => { eax := 0xffffffff, ebx := 2, ecx := 0xffffffff, edx := 3 })
      { rax := 1 } 0x9100).2.1 (by decide)).2.2.2.2.1
  · exact ((handle_cpuid_spec (fun _ _ => { eax := 0, ebx := 0, ecx := 0, edx := 0 })
      { rax := 0x40000000 } 0x9100).2.2.1 (by decide)).2.1

/- ------------------------------------------------------------------
The launched flag: the entry path of VmxVcpu::inner_run
(vcpu.rs:302-313) and AxArchVCpu::unbind (vcpu.rs:1424-1427).
------------------------------------------------------------------ -/

/-- The VM-entry instruction used by one guest entry. -/
inductive EntryInstr
  | vmlaunch
  | vmresume
deriving DecidableEq, Repr

/-- Operations affecting the launched flag: one run (guest entry) or one
unbind. -/
inductive VcpuOp
  | run
  | unbind
deriving DecidableEq, Repr

/-- Effect of one operation on the launched flag, together with the
entry instruction used when the operation is a run: inner_run uses
vmresume when launched is set, and otherwise sets launched and uses
vmlaunch (vcpu.rs:302-313); unbind clears launched (vcpu.rs:1424-1427). -/
def step_launched : Bool → VcpuOp → Bool × Option EntryInstr
  | launched, VcpuOp.run =>
    if launched then (true, some EntryInstr.vmresume)
    else (true, some EntryInstr.vmlaunch)
  | _, VcpuOp.unbind => (false, none)

/-- Fold of step_launched over an operation sequence, collecting the
entry instructions used by the runs in order. -/
def trace_launched : Bool → List VcpuOp → Bool × List EntryInstr
  | b, [] => (b, [])
  | b, op :: ops =>
    let s := step_launched b op
    let t := trace_launched s.1 ops
    (t.1, s.2.toList ++ t.2)

/-- Claim C9: unbind always clears launched; a run with launched set uses
vmresume and keeps it set; a run with launched clear uses vmlaunch and
sets it; and across any sequence of operations containing no unbind,
launched stays set once set and every entry in it uses vmresume — so
launched is set from the first vmlaunch entry until the next unbind, and
the first entry after an unbind uses vmlaunch again. -/
theorem launched_flag_spec :
    (∀ b, step_launched b VcpuOp.unbind = (false, none)) ∧
    (step_launched true VcpuOp.run = (true, some EntryInstr.vmresume)) ∧
    (step_launched false VcpuOp.run = (true, some EntryInstr.vmlaunch)) ∧
    (∀ ops, VcpuOp.unbind ∉ ops →
      (trace_launched true ops).1 = true ∧
      ∀ i ∈ (trace_launched true ops).2, i = EntryInstr.vmresume) ∧
    (∀ ops b, (trace_launched b (VcpuOp.unbind :: ops)).1
      = (trace_launched false ops).1) := by
  refine ⟨fun b => rfl, rfl, rfl, ?_, fun ops b => rfl⟩
  intro ops
  induction ops with
  | nil => exact fun _ => ⟨rfl, fun i hi => absurd hi (List.not_mem_nil i)⟩
  | cons op rest ih =>
    intro hmem
    have hop : op ≠ VcpuOp.unbind := fun h => hmem (h ▸ List.mem_cons_self op rest)
    have hrest : VcpuOp.unbind ∉ rest := fun h => hmem (List.mem_cons_of_mem op h)
    have hoprun : op = VcpuOp.run := by
      cases op
      · rfl
      · exact absurd rfl hop
    subst hoprun
    have key : trace_launched true (VcpuOp.run :: rest) =
        ((trace_launched true rest).1,
         EntryInstr.vmresume :: (trace_launched true rest).2) := rfl
    rw [key]
    refine ⟨(ih hrest).1, ?_⟩
    intro i hi
    rcases List.mem_cons.mp hi with h | h
    · exact h
    · exact (ih hrest).2 i h

/-- Witness for claim C9: starting unlaunched, a run uses vmlaunch, two
further runs use vmresume, and an unbind clears the flag. -/
theorem launched_flag_spec_witness :
    trace_launched false [VcpuOp.run, VcpuOp.run, VcpuOp.run, VcpuOp.unbind]
      = (false, [EntryInstr.vmlaunch, EntryInstr.vmresume, EntryInstr.vmresume]) ∧
    (trace_launched true [VcpuOp.run, VcpuOp.run]).1 = true := by
  exact ⟨by decide, (launched_flag_spec.2.2.2.1 [VcpuOp.run, VcpuOp.run] (by decide)).1⟩

end X86Vcpu
